import Mathlib

/-!
Shallow embedding of `pmr2.compat` (src/pmr2/compat/cli.py), a small CLI
adapter over external CellML metadata libraries.  The external collaborators
(`Cmeta`, `CellMLAPIUtility`, the tmpdoc XSLT transform) are modelled as
abstract data: a `Cmeta` record holds the results of each extraction method,
and `DocExt` carries the opaque tmpdoc transform.  Handlers are modelled as pure
functions from that data to the contents (or filename/contents pair) of the
single output file each one writes; an `Option`/`Except` `none`/`error`
result models an uncaught Python exception raised before any file is written.
-/

/-- JSON-serialisable values appearing in the `cmeta.json` record. -/
inductive JVal where
  | str : String → JVal
  | list : List JVal → JVal

/-- One entry of `citation[0]['creator']`: keys `family`, `given`, `other`. -/
structure Creator where
  family : String
  given : String
  other : List String

/-- One entry of the list returned by `metadata.get_citation(id)`.
`issued = some s` models a Python string value (the `isinstance(issued,
basestring)` check succeeds); `none` models a non-string value. -/
structure Citation where
  citation_id : String
  journal : String
  title : String
  issued : Option String
  creator : List Creator

/-- One entry of `metadata.get_dc_vcard_info(node='')`. -/
structure VCard where
  given : String
  family : String
  orgunit : String
  orgname : String

/-- Abstract model of the external `Cmeta(fd)` object built from one input
file: each field records what the corresponding extraction method returns
for that input.  `license = none` models `get_license()` returning `None`. -/
structure Cmeta where
  license : Option String
  cmetaids : List String
  get_citation : String → List Citation
  keywords : List JVal
  dc_title : List String
  dc_vcard_info : List VCard

-- citation

/-- `citation_cellml(input_path)`: builds `Cmeta` from the file and returns
`metadata.get_license()`; the file read is modelled by receiving `Cmeta`. -/
def citation_cellml (m : Cmeta) : Option String :=
  m.license

/-- The `citation_extract` dispatch dict, as an association list. -/
def citation_extract : List (String × (Cmeta → Option String)) :=
  [("cellml", citation_cellml)]

/-- `citation_extract.get(file_format, lambda _: None)(input_path)`: the
extracted value.  `file_format = none` models the Python `None` default,
which is not a key of the dict. -/
def citation_extracted (m : Cmeta) (file_format : Option String) : Option String :=
  (match file_format with
    | some f => (citation_extract.lookup f).getD (fun _ => none)
    | none => fun _ => none) m

/-- The `citation` handler: returns the contents written to `license.txt`.
`if extracted:` is Python truthiness on `None`-or-string, so `none` and
`some ""` both fall back to the `license_uri` argument. -/
def citation (m : Cmeta) (license_uri : String) (file_format : Option String) : String :=
  match citation_extracted m file_format with
  | some s => if s = "" then license_uri else s
  | none => license_uri

-- cmeta

/-- `re_date = re.compile('^[0-9]{4}(-[0-9]{2}){0,2}')`; `re_date.search(s)`
succeeds iff `s` starts with four ASCII digits (the anchored pattern's
group may match zero times). -/
def re_date_search (s : String) : Bool :=
  let cs := s.toList.take 4
  cs.length == 4 && cs.all Char.isDigit

/-- The key/value pairs `generate_citation()` adds to `result`, in order.
Empty `cmetaids` or an empty citation list is Python-falsy and returns
early with nothing added; an empty `creator` list returns early after the
first four keys were already set. -/
def generate_citation (m : Cmeta) : List (String × JVal) :=
  match m.cmetaids with
  | [] => []
  | cid :: _ =>
    match m.get_citation cid with
    | [] => []
    | c :: _ =>
      let issued : JVal :=
        match c.issued with
        | some s => if re_date_search s then JVal.str s else JVal.str ""
        | none => JVal.str ""
      let base := [("citation_id", JVal.str c.citation_id),
                   ("citation_bibliographicCitation", JVal.str c.journal),
                   ("citation_title", JVal.str c.title),
                   ("citation_issued", issued)]
      match c.creator with
      | [] => base
      | creators =>
          base ++ [("citation_authors", JVal.list (creators.map (fun cr =>
            JVal.list [JVal.str cr.family, JVal.str cr.given,
              JVal.str (match cr.other with
                        | [] => ""
                        | os => " ".intercalate os)])))]

/-- `generate_keywords()`: unconditionally sets `result['keywords']`. -/
def generate_keywords (m : Cmeta) : List (String × JVal) :=
  [("keywords", JVal.list m.keywords)]

/-- `generate_model_title()`: sets `result['model_title']` to the first
title iff `get_dc_title(node='')` returned a non-empty (truthy) list. -/
def generate_model_title (m : Cmeta) : List (String × JVal) :=
  match m.dc_title with
  | [] => []
  | t :: _ => [("model_title", JVal.str t)]

/-- `generate_model_authorship()`: uses only the first vcard entry, if any. -/
def generate_model_authorship (m : Cmeta) : List (String × JVal) :=
  match m.dc_vcard_info with
  | [] => []
  | i :: _ =>
      [("model_author", JVal.str (i.given ++ " " ++ i.family)),
       ("model_author_org", JVal.str (i.orgunit ++ ", " ++ i.orgname))]

/-- The record the `cmeta` handler serialises into `cmeta.json`: the four
generators mutate the shared `result` dict in this order, and their key
sets are pairwise disjoint, so the dict is faithfully an association
list. -/
def cmeta_result (m : Cmeta) : List (String × JVal) :=
  generate_citation m ++ generate_keywords m
    ++ generate_model_title m ++ generate_model_authorship m

/-- The keys of a record. -/
def recKeys (r : List (String × JVal)) : List String :=
  r.map Prod.fst

/-- The five citation-related keys `generate_citation` may write. -/
def citationKeys : List String :=
  ["citation_id", "citation_bibliographicCitation", "citation_title",
   "citation_issued", "citation_authors"]

/-- `generate_citation` adds nothing: no cmeta id, or no citation record. -/
def citation_yields_nothing (m : Cmeta) : Bool :=
  match m.cmetaids with
  | [] => true
  | cid :: _ => (m.get_citation cid).isEmpty

-- docgen

/-- The opaque external collaborators of the doc handlers: the
`tmpdoc2html` legacy transform from `pmr2.processor`. -/
structure DocExt where
  tmpdoc2html : String → String

/-- `htmldoc`: writes the input file's contents to `index.html` verbatim. -/
def htmldoc (_ext : DocExt) (input : String) : String × String :=
  ("index.html", input)

/-- `tmpdoc`: writes `tmpdoc2html(input)` to `index.html`. -/
def tmpdoc (ext : DocExt) (input : String) : String × String :=
  ("index.html", ext.tmpdoc2html input)

/-- `docs_lookup = {fn.__name__: fn for fn, _ in docs}`. -/
def docs_lookup (ext : DocExt) : List (String × (String → String × String)) :=
  [("htmldoc", htmldoc ext), ("tmpdoc", tmpdoc ext)]

/-- `docgen`: `docs_lookup[doctype](input_path, output_dir)`.  The Python
`dict[key]` lookup raises `KeyError` before the handler runs, so `none`
models the failure with no file yet written; `some (name, contents)` is
the single file the selected handler writes. -/
def docgen (ext : DocExt) (doctype : String) (input : String) : Option (String × String) :=
  ((docs_lookup ext).lookup doctype).map (fun f => f input)

-- set up commands

/-- A default value as argparse receives it: Python `None` or a string. -/
inductive PyVal where
  | pynone
  | pystr (s : String)
deriving DecidableEq, Repr

/-- The result of `inspect.getargspec` on a handler: the declared formal
parameter names and the tuple of trailing default values (`argspec.defaults
or ()` turns `None` into the empty tuple). -/
structure ArgSpec where
  args : List String
  defaults : List PyVal
deriving DecidableEq, Repr

/-- `getargspec(citation)`: `def citation(input_path, output_dir,
license_uri, file_format=None)`. -/
def citation_argspec : ArgSpec :=
  ⟨["input_path", "output_dir", "license_uri", "file_format"], [PyVal.pynone]⟩

/-- `getargspec(cmeta)`: `def cmeta(input_path, output_dir)`. -/
def cmeta_argspec : ArgSpec :=
  ⟨["input_path", "output_dir"], []⟩

/-- `getargspec(codegen)`: `def codegen(input_path, output_dir)`. -/
def codegen_argspec : ArgSpec :=
  ⟨["input_path", "output_dir"], []⟩

/-- `getargspec(docgen)`: `def docgen(doctype, input_path, output_dir)`. -/
def docgen_argspec : ArgSpec :=
  ⟨["doctype", "input_path", "output_dir"], []⟩

/-- `getargspec(maths)`: `def maths(input_path, output_dir)`. -/
def maths_argspec : ArgSpec :=
  ⟨["input_path", "output_dir"], []⟩

/-- The `cmd_fns` registry: handler name (`cmd_fn.__name__`), its declared
signature, and its help text. -/
def cmd_fns : List (String × ArgSpec × String) :=
  [("citation", citation_argspec, "Citation"),
   ("cmeta", cmeta_argspec, "CellML metadata"),
   ("codegen", codegen_argspec, "CellML codegen"),
   ("docgen", docgen_argspec, "CellML docgen"),
   ("maths", maths_argspec, "CellML math")]

/-- `arg.replace('_', '-')`: with a one-character pattern this is a
character-wise replacement; written over the character list so that it
evaluates by kernel reduction. -/
def dashify (s : String) : String :=
  ⟨s.data.map (fun c => if c = '_' then '-' else c)⟩

/-- The argparse destination of a flag string: strip the leading `--` and
turn hyphens back into underscores. -/
def flagDest (flag : String) : String :=
  ⟨(flag.data.drop 2).map (fun c => if c = '-' then '_' else c)⟩

/-- One `add_argument` call: the flag string and the `required`/`default`
keyword arguments it was given. -/
structure CmdFlag where
  name : String
  required : Bool
  dflt : PyVal
deriving DecidableEq, Repr

/-- One sub-command added by `ap_grp.add_parser`, with its flags in
declaration order. -/
structure SubParser where
  cmd : String
  flags : List CmdFlag
deriving DecidableEq, Repr

/-- `generate_cmd_parser` of the source (renamed here): for each handler, build
`defaults = dict(zip(reversed(argspec.args), argspec.defaults or ()))` and
add one flag per declared parameter with `'--' + arg.replace('_', '-')`,
`required=arg not in defaults`, `default=defaults.get(arg)` (which is
Python `None` when `arg` is not a key). -/
def generate_cmd_schema (fns : List (String × ArgSpec × String)) : List SubParser :=
  fns.map (fun e =>
    match e with
    | (name, spec, _help) =>
      let defaults := spec.args.reverse.zip spec.defaults
      { cmd := name,
        flags := spec.args.map (fun arg =>
          { name := "--" ++ dashify arg,
            required := (defaults.lookup arg).isNone,
            dflt := (defaults.lookup arg).getD PyVal.pynone }) })

/-- Modelled from the spec: the Parser Builder as §4.2 words it — "zip
defaults to the trailing parameters (positional-style default binding)", a
parameter is required iff it is not among the trailing defaulted
parameters, and an optional parameter is pre-populated with its declared
default value.  Differs from `generate_cmd_schema` only in binding the
default values to the trailing parameters in positional order. -/
def generate_cmd_schema_spec (fns : List (String × ArgSpec × String)) : List SubParser :=
  fns.map (fun e =>
    match e with
    | (name, spec, _help) =>
      let trailing := (spec.args.drop (spec.args.length - spec.defaults.length)).zip
        spec.defaults
      { cmd := name,
        flags := spec.args.map (fun arg =>
          { name := "--" ++ dashify arg,
            required := (trailing.lookup arg).isNone,
            dflt := (trailing.lookup arg).getD PyVal.pynone }) })

/-- Modelled from the spec: argparse (outside this repository) rejects a
parse when a required flag is absent from the provided arguments — "missing
required flags fail at the parsing stage with a generic usage error" (§7).
A provided invocation is an association list of flag string to value; the
result is the keyword bag (argparse dest = flag without `--`, hyphens back
to underscores) or a usage error. -/
def parse_flags (provided : List (String × String)) :
    List CmdFlag → Except Unit (List (String × PyVal))
  | [] => Except.ok []
  | fl :: rest =>
    match provided.lookup fl.name with
    | some v =>
        (parse_flags provided rest).map
          (fun kw => (flagDest fl.name, PyVal.pystr v) :: kw)
    | none =>
        if fl.required then Except.error ()
        else (parse_flags provided rest).map
          (fun kw => (flagDest fl.name, fl.dflt) :: kw)

/-- The parse of one sub-command's flags. -/
def parse_sub (sp : SubParser) (provided : List (String × String)) :
    Except Unit (List (String × PyVal)) :=
  parse_flags provided sp.flags

/-- Modelled from the spec: `main` — parse argv against the synthesized
schema, pop the command name, and invoke `commands[cmd]` with the keyword
bag.  The `ok` result names the handler that runs and the keyword
arguments it receives; `error` is a usage failure with no handler called. -/
def main_dispatch (fns : List (String × ArgSpec × String)) (cmd : String)
    (provided : List (String × String)) :
    Except Unit (String × List (String × PyVal)) :=
  match (generate_cmd_schema fns).find? (fun sp => sp.cmd == cmd) with
  | none => Except.error ()
  | some sp => (parse_sub sp provided).map (fun kw => (cmd, kw))

-- concrete inputs used to instantiate the theorems

/-- An input whose extractions all come back empty. -/
def m_empty : Cmeta :=
  ⟨none, [], fun _ => [], [], [], []⟩

/-- An input whose metadata carries a licence URI. -/
def m_lic : Cmeta :=
  ⟨some "http://example.org/licence", [], fun _ => [], [], [], []⟩

/-- An input whose `get_license()` returns the empty string. -/
def m_emptylic : Cmeta :=
  ⟨some "", [], fun _ => [], [], [], []⟩

/-- A citation record with no creators. -/
def cite_nocreator : Citation :=
  ⟨"c0", "Journal of Examples", "An Example", some "2001-02", []⟩

/-- An input with a cmeta id and a creator-less citation. -/
def m_cite : Cmeta :=
  ⟨none, ["c0"], fun _ => [cite_nocreator], [], [], []⟩

/-- The sub-parser `generate_cmd_schema` builds for the `citation`
handler. -/
def citation_subparser : SubParser :=
  { cmd := "citation",
    flags := [⟨"--input-path", true, PyVal.pynone⟩,
              ⟨"--output-dir", true, PyVal.pynone⟩,
              ⟨"--license-uri", true, PyVal.pynone⟩,
              ⟨"--file-format", false, PyVal.pynone⟩] }

-- helper lemmas

theorem recKeys_cmeta_result (m : Cmeta) :
    recKeys (cmeta_result m) =
      recKeys (generate_citation m) ++ ["keywords"]
        ++ recKeys (generate_model_title m)
        ++ recKeys (generate_model_authorship m) := by
  simp [cmeta_result, recKeys, generate_keywords]

theorem generate_model_title_keys (m : Cmeta) :
    (m.dc_title = [] ∧ recKeys (generate_model_title m) = []) ∨
    (m.dc_title ≠ [] ∧ recKeys (generate_model_title m) = ["model_title"]) := by
  cases h : m.dc_title with
  | nil => exact Or.inl ⟨rfl, by simp [generate_model_title, h, recKeys]⟩
  | cons t ts => exact Or.inr ⟨by simp [h], by simp [generate_model_title, h, recKeys]⟩

theorem generate_model_authorship_keys (m : Cmeta) :
    (m.dc_vcard_info = [] ∧ recKeys (generate_model_authorship m) = []) ∨
    (m.dc_vcard_info ≠ [] ∧
      recKeys (generate_model_authorship m) = ["model_author", "model_author_org"]) := by
  cases h : m.dc_vcard_info with
  | nil => exact Or.inl ⟨rfl, by simp [generate_model_authorship, h, recKeys]⟩
  | cons i is => exact Or.inr ⟨by simp [h], by simp [generate_model_authorship, h, recKeys]⟩

theorem generate_citation_keys_nil (m : Cmeta)
    (h : citation_yields_nothing m = true) :
    recKeys (generate_citation m) = [] := by
  cases h1 : m.cmetaids with
  | nil => simp [generate_citation, h1, recKeys]
  | cons cid ids =>
    cases h2 : m.get_citation cid with
    | nil => simp [generate_citation, h1, h2, recKeys]
    | cons c cs =>
      exfalso
      simp [citation_yields_nothing, h1, h2] at h

theorem generate_citation_keys_nocreator (m : Cmeta) (cid : String)
    (ids : List String) (c : Citation) (cs : List Citation)
    (h1 : m.cmetaids = cid :: ids) (h2 : m.get_citation cid = c :: cs)
    (h3 : c.creator = []) :
    recKeys (generate_citation m) =
      ["citation_id", "citation_bibliographicCitation", "citation_title",
       "citation_issued"] := by
  cases h4 : c.issued with
  | none => simp [generate_citation, h1, h2, h3, h4, recKeys]
  | some s =>
    by_cases h5 : re_date_search s
      <;> simp [generate_citation, h1, h2, h3, h4, h5, recKeys]

theorem generate_citation_keys_sub (m : Cmeta) :
    ∀ k ∈ recKeys (generate_citation m), k ∈ citationKeys := by
  intro k hk
  cases h1 : m.cmetaids with
  | nil => simp [generate_citation, h1, recKeys] at hk
  | cons cid ids =>
    cases h2 : m.get_citation cid with
    | nil => simp [generate_citation, h1, h2, recKeys] at hk
    | cons c cs =>
      cases h3 : c.creator with
      | nil =>
        simp [generate_citation, h1, h2, h3, recKeys] at hk
        simp [citationKeys]
        tauto
      | cons cr crs =>
        simp [generate_citation, h1, h2, h3, recKeys] at hk
        simp [citationKeys]
        tauto

theorem parse_flags_error_of_mem (provided : List (String × String))
    (flags : List CmdFlag) (fl : CmdFlag) (hfl : fl ∈ flags)
    (hreq : fl.required = true) (hmiss : provided.lookup fl.name = none) :
    parse_flags provided flags = Except.error () := by
  induction flags with
  | nil => cases hfl
  | cons x xs ih =>
    rcases List.mem_cons.mp hfl with rfl | hmem
    · simp [parse_flags, hmiss, hreq]
    · cases hx : provided.lookup x.name with
      | some v => simp [parse_flags, hx, ih hmem, Except.map]
      | none =>
          by_cases hr : x.required = true
          · simp [parse_flags, hx, hr]
          · simp [parse_flags, hx, hr, ih hmem, Except.map]

theorem find_self_of_nodup (l : List SubParser) (sp : SubParser)
    (hsp : sp ∈ l) (hnd : (l.map (fun q => q.cmd)).Nodup) :
    l.find? (fun q => q.cmd == sp.cmd) = some sp := by
  induction l with
  | nil => cases hsp
  | cons x xs ih =>
    rcases List.mem_cons.mp hsp with rfl | hmem
    · exact List.find?_cons_of_pos _ (by simp)
    · have hx : x.cmd ≠ sp.cmd := by
        intro he
        have : sp.cmd ∈ xs.map (fun q => q.cmd) := List.mem_map_of_mem _ hmem
        rw [List.map_cons, List.nodup_cons, he] at hnd
        exact hnd.1 this
      have hnd' : (xs.map (fun q => q.cmd)).Nodup := by
        rw [List.map_cons, List.nodup_cons] at hnd
        exact hnd.2
      rw [List.find?_cons_of_neg _ (by simp [hx])]
      exact ih hmem hnd'

theorem cmeta_key_cases (m : Cmeta) (k : String)
    (hmem : k ∈ recKeys (cmeta_result m)) :
    k ∈ recKeys (generate_citation m) ∨ k = "keywords" ∨
    k ∈ recKeys (generate_model_title m) ∨
    k ∈ recKeys (generate_model_authorship m) := by
  rw [recKeys_cmeta_result] at hmem
  simp only [List.mem_append, List.mem_singleton] at hmem
  tauto

-- claims

/-- C1: for every handler registered in `cmd_fns`, `generate_cmd_schema`
marks a parameter as required iff it is not among the trailing defaulted
parameters of the handler's declared signature, and every non-required
flag is pre-populated with that parameter's declared default value — i.e.
on the actual registry the builder coincides with the spec's
positional-trailing default binding. -/
theorem registry_required_iff_trailing_default :
    generate_cmd_schema cmd_fns = generate_cmd_schema_spec cmd_fns := by
  decide

/-- C2, counterexample: on an input whose extractions all yield nothing,
the keyword sub-extraction yields the empty list and yet the record still
carries a `keywords` placeholder entry, so not every sub-extraction's keys
are absent when it yields nothing. -/
theorem keywords_placeholder_counterexample :
    m_empty.keywords = [] ∧ cmeta_result m_empty = [("keywords", JVal.list [])] ∧
    "keywords" ∈ recKeys (cmeta_result m_empty) := by
  exact ⟨rfl, rfl, List.mem_singleton_self "keywords"⟩

/-- C2, amended: the record aggregates the four extractions; the citation,
model-title and model-authorship sub-extractions are independently
optional — their keys are silently absent when the sub-extraction yields
nothing — but the `keywords` key is always written, holding whatever
(possibly empty) value the keyword extraction returned. -/
theorem cmeta_sub_extractions_optional (m : Cmeta) :
    "keywords" ∈ recKeys (cmeta_result m) ∧
    (citation_yields_nothing m = true →
      ∀ k ∈ citationKeys, k ∉ recKeys (cmeta_result m)) ∧
    (m.dc_title = [] → "model_title" ∉ recKeys (cmeta_result m)) ∧
    (m.dc_vcard_info = [] →
      "model_author" ∉ recKeys (cmeta_result m) ∧
      "model_author_org" ∉ recKeys (cmeta_result m)) := by
  refine ⟨?_, ?_, ?_, ?_⟩
  · rw [recKeys_cmeta_result]
    simp only [List.mem_append, List.mem_singleton]
    tauto
  · intro h k hk hmem
    have hnil := generate_citation_keys_nil m h
    rcases cmeta_key_cases m k hmem with hgc | hkw | hgt | hga
    · rw [hnil] at hgc
      simp at hgc
    · subst hkw
      simp [citationKeys] at hk
    · rcases generate_model_title_keys m with ⟨_, e⟩ | ⟨_, e⟩ <;> rw [e] at hgt
      · simp at hgt
      · rw [List.mem_singleton] at hgt
        subst hgt
        simp [citationKeys] at hk
    · rcases generate_model_authorship_keys m with ⟨_, e⟩ | ⟨_, e⟩ <;> rw [e] at hga
      · simp at hga
      · simp at hga
        rcases hga with rfl | rfl <;> simp [citationKeys] at hk
  · intro h hmem
    rcases cmeta_key_cases m "model_title" hmem with hgc | hkw | hgt | hga
    · have := generate_citation_keys_sub m _ hgc
      simp [citationKeys] at this
    · simp at hkw
    · rcases generate_model_title_keys m with ⟨_, e⟩ | ⟨hne, _⟩
      · rw [e] at hgt
        simp at hgt
      · exact hne h
    · rcases generate_model_authorship_keys m with ⟨_, e⟩ | ⟨_, e⟩ <;> rw [e] at hga <;>
        simp at hga
  · intro h
    constructor <;> intro hmem
    · rcases cmeta_key_cases m "model_author" hmem with hgc | hkw | hgt | hga
      · have := generate_citation_keys_sub m _ hgc
        simp [citationKeys] at this
      · simp at hkw
      · rcases generate_model_title_keys m with ⟨_, e⟩ | ⟨_, e⟩ <;> rw [e] at hgt <;>
          simp at hgt
      · rcases generate_model_authorship_keys m with ⟨_, e⟩ | ⟨hne, _⟩
        · rw [e] at hga
          simp at hga
        · exact hne h
    · rcases cmeta_key_cases m "model_author_org" hmem with hgc | hkw | hgt | hga
      · have := generate_citation_keys_sub m _ hgc
        simp [citationKeys] at this
      · simp at hkw
      · rcases generate_model_title_keys m with ⟨_, e⟩ | ⟨_, e⟩ <;> rw [e] at hgt <;>
          simp at hgt
      · rcases generate_model_authorship_keys m with ⟨_, e⟩ | ⟨hne, _⟩
        · rw [e] at hga
          simp at hga
        · exact hne h

/-- C2, witness: on the all-empty input the amended statement is concrete —
the `keywords` key is present while citation, title and authorship keys
are absent. -/
theorem cmeta_sub_extractions_optional_witness :
    "keywords" ∈ recKeys (cmeta_result m_empty) ∧
    "citation_id" ∉ recKeys (cmeta_result m_empty) ∧
    "model_title" ∉ recKeys (cmeta_result m_empty) ∧
    "model_author" ∉ recKeys (cmeta_result m_empty) := by
  obtain ⟨h1, h2, h3, h4⟩ := cmeta_sub_extractions_optional m_empty
  exact ⟨h1, h2 rfl "citation_id" (by decide), h3 rfl, (h4 rfl).1⟩

/-- C3: when the format-specific extraction yields nothing the contents
written to `license.txt` equal the `license_uri` argument, and when the
extraction yields a (non-empty) licence URI that extracted value is
written instead. -/
theorem citation_fallback_or_extracted (m : Cmeta) (uri : String)
    (ff : Option String) :
    (citation_extracted m ff = none → citation m uri ff = uri) ∧
    (∀ s, citation_extracted m ff = some s → s ≠ "" → citation m uri ff = s) := by
  constructor
  · intro h
    simp [citation, h]
  · intro s h hs
    simp [citation, h, hs]

/-- C3, witness: an unregistered format falls back to the passed URI, and
an extracted licence URI is written instead of the passed one. -/
theorem citation_fallback_or_extracted_witness :
    citation m_empty "http://default" (some "pdf") = "http://default" ∧
    citation m_lic "http://default" (some "cellml") = "http://example.org/licence" :=
  ⟨(citation_fallback_or_extracted m_empty "http://default" (some "pdf")).1 rfl,
   (citation_fallback_or_extracted m_lic "http://default" (some "cellml")).2
     "http://example.org/licence" rfl (by decide)⟩

/-- C4: a doctype that is not a key of `docs_lookup` makes `docgen` fail
with the key-lookup error, before any output file is written. -/
theorem docgen_unknown_doctype_fails (ext : DocExt) (doctype input : String)
    (h : doctype ∉ (docs_lookup ext).map Prod.fst) :
    docgen ext doctype input = none := by
  simp only [docs_lookup, List.map_cons, List.map_nil, List.mem_cons,
    List.mem_singleton, not_or] at h
  have hb1 : (doctype == "htmldoc") = false := by simp [h.1]
  have hb2 : (doctype == "tmpdoc") = false := by simp [h.2.1]
  simp [docgen, docs_lookup, List.lookup, hb1, hb2]

/-- C4, witness: doctype `pdf` is unregistered and produces no file. -/
theorem docgen_unknown_doctype_fails_witness :
    docgen ⟨fun s => s⟩ "pdf" "<p>body</p>" = none :=
  docgen_unknown_doctype_fails ⟨fun s => s⟩ "pdf" "<p>body</p>" (by decide)

/-- C5: `docgen` with doctype `htmldoc` writes `index.html` with contents
byte-identical to the input file. -/
theorem docgen_htmldoc_byte_identical (ext : DocExt) (input : String) :
    docgen ext "htmldoc" input = some ("index.html", input) :=
  rfl

/-- C6: when the metadata yields no cmeta id, the record contains none of
the five citation-related keys. -/
theorem no_cmetaid_no_citation_keys (m : Cmeta) (h : m.cmetaids = []) :
    ∀ k ∈ citationKeys, k ∉ recKeys (cmeta_result m) := by
  intro k hk hmem
  have hnil : recKeys (generate_citation m) = [] :=
    generate_citation_keys_nil m (by simp [citation_yields_nothing, h])
  rcases cmeta_key_cases m k hmem with hgc | hkw | hgt | hga
  · rw [hnil] at hgc
    simp at hgc
  · subst hkw
    simp [citationKeys] at hk
  · rcases generate_model_title_keys m with ⟨_, e⟩ | ⟨_, e⟩ <;> rw [e] at hgt
    · simp at hgt
    · rw [List.mem_singleton] at hgt
      subst hgt
      simp [citationKeys] at hk
  · rcases generate_model_authorship_keys m with ⟨_, e⟩ | ⟨_, e⟩ <;> rw [e] at hga
    · simp at hga
    · simp at hga
      rcases hga with rfl | rfl <;> simp [citationKeys] at hk

/-- C6, witness: the all-empty input's record has no `citation_id` key. -/
theorem no_cmetaid_no_citation_keys_witness :
    "citation_id" ∉ recKeys (cmeta_result m_empty) :=
  no_cmetaid_no_citation_keys m_empty rfl "citation_id" (by decide)

/-- C7: for every registered sub-command, omitting a required flag makes
the parse fail with a usage error, and `main` never reaches the handler —
dispatch also reports the error with no handler invocation. -/
theorem missing_required_flag_usage_failure (sp : SubParser)
    (hsp : sp ∈ generate_cmd_schema cmd_fns) (fl : CmdFlag)
    (hfl : fl ∈ sp.flags) (hreq : fl.required = true)
    (provided : List (String × String))
    (hmiss : provided.lookup fl.name = none) :
    parse_sub sp provided = Except.error () ∧
    main_dispatch cmd_fns sp.cmd provided = Except.error () := by
  have hperr : parse_sub sp provided = Except.error () :=
    parse_flags_error_of_mem provided sp.flags fl hfl hreq hmiss
  refine ⟨hperr, ?_⟩
  rw [main_dispatch,
    find_self_of_nodup (generate_cmd_schema cmd_fns) sp hsp (by decide)]
  simp [hperr, Except.map]

/-- C7, witness: invoking `citation` with no flags at all is a usage
failure; the handler is never dispatched. -/
theorem missing_required_flag_usage_failure_witness :
    parse_sub citation_subparser [] = Except.error () ∧
    main_dispatch cmd_fns citation_subparser.cmd [] = Except.error () :=
  missing_required_flag_usage_failure citation_subparser (by decide)
    ⟨"--input-path", true, PyVal.pynone⟩ (by decide) rfl [] rfl

/-- C8: the parser builder produces exactly one sub-command per registered
handler, named after it, with exactly one flag per declared parameter,
each flag named by replacing every underscore in the parameter name by a
hyphen. -/
theorem subcommands_and_flag_names :
    (generate_cmd_schema cmd_fns).map
        (fun sp => (sp.cmd, sp.flags.map CmdFlag.name)) =
      [("citation", ["--input-path", "--output-dir", "--license-uri",
                     "--file-format"]),
       ("cmeta", ["--input-path", "--output-dir"]),
       ("codegen", ["--input-path", "--output-dir"]),
       ("docgen", ["--doctype", "--input-path", "--output-dir"]),
       ("maths", ["--input-path", "--output-dir"])] := by
  decide

/-- C9: when the format-specific extractor runs but returns the empty
string (a Python-falsy value), the fallback `license_uri` is written: the
fallback triggers on any falsy extraction result. -/
theorem empty_extraction_falls_back (m : Cmeta) (uri f : String)
    (ext : Cmeta → Option String)
    (hlk : citation_extract.lookup f = some ext) (hv : ext m = some "") :
    citation m uri (some f) = uri := by
  simp [citation, citation_extracted, hlk, hv]

/-- C9, witness: a cellml input whose `get_license()` is the empty string
falls back to the passed URI. -/
theorem empty_extraction_falls_back_witness :
    citation m_emptylic "http://fallback" (some "cellml") = "http://fallback" :=
  empty_extraction_falls_back m_emptylic "http://fallback" "cellml"
    citation_cellml rfl rfl

/-- C10: a cmeta id with a citation whose creator list is empty produces a
partial citation record: the id, bibliographicCitation, title and issued
keys are present and the authors key is absent. -/
theorem partial_citation_record (m : Cmeta) (cid : String) (ids : List String)
    (c : Citation) (cs : List Citation) (h1 : m.cmetaids = cid :: ids)
    (h2 : m.get_citation cid = c :: cs) (h3 : c.creator = []) :
    "citation_id" ∈ recKeys (cmeta_result m) ∧
    "citation_bibliographicCitation" ∈ recKeys (cmeta_result m) ∧
    "citation_title" ∈ recKeys (cmeta_result m) ∧
    "citation_issued" ∈ recKeys (cmeta_result m) ∧
    "citation_authors" ∉ recKeys (cmeta_result m) := by
  have hgc := generate_citation_keys_nocreator m cid ids c cs h1 h2 h3
  rw [recKeys_cmeta_result, hgc]
  refine ⟨by simp, by simp, by simp, by simp, ?_⟩
  intro hmem
  simp only [List.mem_append] at hmem
  rcases hmem with ((h4 | h5) | hgt) | hga
  · simp at h4
  · simp at h5
  · rcases generate_model_title_keys m with ⟨_, e⟩ | ⟨_, e⟩ <;> rw [e] at hgt <;>
      simp at hgt
  · rcases generate_model_authorship_keys m with ⟨_, e⟩ | ⟨_, e⟩ <;> rw [e] at hga <;>
      simp at hga

/-- C10, witness: the concrete creator-less citation input yields the four
citation keys and no authors key. -/
theorem partial_citation_record_witness :
    "citation_id" ∈ recKeys (cmeta_result m_cite) ∧
    "citation_bibliographicCitation" ∈ recKeys (cmeta_result m_cite) ∧
    "citation_title" ∈ recKeys (cmeta_result m_cite) ∧
    "citation_issued" ∈ recKeys (cmeta_result m_cite) ∧
    "citation_authors" ∉ recKeys (cmeta_result m_cite) :=
  partial_citation_record m_cite "c0" [] cite_nocreator [] rfl rfl rfl
